import Mathlib

/-
Verification development for the data-scientist agent repository.

The embedding models the action-text grammar of src/llm_interface.py
(function parse_action) and the execution loop of src/main_controller.py
(method DataScientistAgent.run) as pure Lean functions over lists of
characters.  Python strings are modelled as List Char; Python dicts that
hold the parsed arguments are modelled as association lists whose update
keeps the position of an existing key (insertion order, last write wins),
which matches CPython dict semantics.  Only the ASCII behaviour of the
Python character classes (str.isdigit, str.isspace, regex \w and \s) is
modelled; every input appearing in the theorems below is ASCII.
-/

namespace DSA

abbrev Str := List Char

/-- Single-quote character, kept as a named constant so that modelled
source strings can be assembled without embedding the character in
string literals. -/
def sq : Char := '\''

/-- Double-quote character. -/
def dq : Char := '"'

def isDigitChar (c : Char) : Bool := 48 ≤ c.toNat && c.toNat ≤ 57

/-- ASCII whitespace recognised by Python str.isspace / str.strip and by
the regex class \s: space, tab, newline, carriage return, vertical tab,
form feed. -/
def isSpaceChar (c : Char) : Bool :=
  c == ' ' || c == '\t' || c == '\n' || c == '\r' || c == '\x0b' || c == '\x0c'

/-- ASCII word character, the regex class \w restricted to ASCII. -/
def isWordChar (c : Char) : Bool :=
  isDigitChar c || (65 ≤ c.toNat && c.toNat ≤ 90) || (97 ≤ c.toNat && c.toNat ≤ 122) || c == '_'

def toLowerChar (c : Char) : Char :=
  if 65 ≤ c.toNat && c.toNat ≤ 90 then Char.ofNat (c.toNat + 32) else c

def toLowerStr (s : Str) : Str := s.map toLowerChar

/-- Python s.isdigit() for ASCII strings: nonempty and all digits. -/
def pyIsDigit (s : Str) : Bool := !s.isEmpty && s.all isDigitChar

/-- Python s.isspace(): nonempty and all whitespace. -/
def pyIsSpaceStr (s : Str) : Bool := !s.isEmpty && s.all isSpaceChar

/-- Python s.strip(): remove leading and trailing whitespace. -/
def pyStrip (s : Str) : Str :=
  ((s.dropWhile isSpaceChar).reverse.dropWhile isSpaceChar).reverse

/-- Python s.strip(chars): remove any leading and trailing characters
belonging to the given set. -/
def pyStripSet (cs : List Char) (s : Str) : Str :=
  ((s.dropWhile (cs.contains ·)).reverse.dropWhile (cs.contains ·)).reverse

/-- Does pat occur as a prefix of s. -/
def startsWith : Str → Str → Bool
  | [], _ => true
  | _ :: _, [] => false
  | p :: ps, c :: cs => p == c && startsWith ps cs

def endsWith (pat s : Str) : Bool := startsWith pat.reverse s.reverse

/-- Python membership test pat in s (substring search). -/
def containsSub : Str → Str → Bool
  | s, pat =>
    match s with
    | [] => pat.isEmpty
    | _ :: cs => startsWith pat s || containsSub cs pat

/-- Helper for pyReplace, with explicit fuel (the fuel is always at
least the length of the scanned list, so the fuel-exhausted branch never
fires for the wrapper below). -/
def pyReplaceAux (pat rep : Str) : Nat → Str → Str
  | _, [] => []
  | 0, s => s
  | fuel + 1, c :: cs =>
    if startsWith pat (c :: cs) then
      rep ++ pyReplaceAux pat rep fuel ((c :: cs).drop pat.length)
    else
      c :: pyReplaceAux pat rep fuel cs

/-- Python s.replace(pat, rep): replace every non-overlapping occurrence,
scanning left to right.  The patterns used by the source are nonempty. -/
def pyReplace (s pat rep : Str) : Str :=
  if pat.isEmpty then s else pyReplaceAux pat rep s.length s

/-- Python s.replace(c, rep, 1): replace only the first occurrence of a
single character. -/
def replaceFirstChar (c : Char) (rep : Str) : Str → Str
  | [] => []
  | x :: xs => if x == c then rep ++ xs else x :: replaceFirstChar c rep xs

/-- Python s.split(sep, 1) when sep is known to occur: the characters
before the first sep and every character after it. -/
def splitFirst (sep : Char) : Str → Str × Str
  | [] => ([], [])
  | c :: cs =>
    if c == sep then ([], cs)
    else
      let r := splitFirst sep cs
      (c :: r.1, r.2)

def countChar (c : Char) (s : Str) : Nat := (s.filter (· == c)).length

/-- Python value[1:-1]: drop the first and the last character. -/
def dropFirstLast (s : Str) : Str := (s.drop 1).dropLast

/-- Decimal rendering of a natural number (used for the iteration number
in the f-string of main_controller.py line 171). -/
def natToDecAux : Nat → Nat → Str
  | 0, _ => []
  | fuel + 1, n =>
    if n < 10 then [Char.ofNat (48 + n)]
    else natToDecAux fuel (n / 10) ++ [Char.ofNat (48 + n % 10)]

def natToDec (n : Nat) : Str := natToDecAux (n + 1) n

/-- Value model: the Python values that parse_action can place in the
argument dictionary.  Floating point literals are kept as their source
text (floatLit); the loop never computes with them, so no floating point
arithmetic is modelled.  noneV models Python None (JSON null). -/
inductive PyValue where
  | str (s : Str)
  | bool (b : Bool)
  | int (n : Int)
  | floatLit (s : Str)
  | list (xs : List PyValue)
  | dict (kvs : List (Str × PyValue))
  | noneV

/-- CPython dict assignment d[k] = v on an association list with unique
keys: overwrite in place when the key exists, append otherwise. -/
def pySet {α : Type} (d : List (Str × α)) (k : Str) (v : α) : List (Str × α) :=
  match d with
  | [] => [(k, v)]
  | (k', v') :: r => if k' = k then (k', v) :: r else (k', v') :: pySet r k v

/-- CPython dict read d.get(k). -/
def pyGet {α : Type} (d : List (Str × α)) (k : Str) : Option α :=
  match d with
  | [] => Option.none
  | (k', v) :: r => if k' = k then some v else pyGet r k

/-- CPython dict read with default d.get(k, dflt). -/
def pyGetD (d : List (Str × PyValue)) (k : Str) (dflt : PyValue) : PyValue :=
  match pyGet d k with
  | some v => v
  | Option.none => dflt

/-! Model of Python json.loads (strict mode, the default used by the
source).  The grammar is RFC JSON plus the CPython extensions NaN,
Infinity and -Infinity.  Object keys must be double-quoted strings; a
bare identifier key makes the decode fail, which is the behaviour the
fallback path of parse_action relies on.  Numbers with a fraction or
exponent are kept as floatLit literals.  The recursion is fuelled; the
fuel passed by jsonLoads exceeds the input length and every recursive
call first consumes at least one character, so the fuel never runs out
on the inputs the enclosing parser can produce. -/

def jsonWs (s : Str) : Str :=
  s.dropWhile (fun c => c == ' ' || c == '\t' || c == '\n' || c == '\r')

def hexVal (c : Char) : Option Nat :=
  if isDigitChar c then some (c.toNat - 48)
  else if 97 ≤ c.toNat && c.toNat ≤ 102 then some (c.toNat - 87)
  else if 65 ≤ c.toNat && c.toNat ≤ 70 then some (c.toNat - 55)
  else Option.none

/-- JSON string body (after the opening quote), with escape handling;
unescaped control characters are rejected as in strict mode. -/
def jsonStringAux : Nat → Str → Str → Option (Str × Str)
  | 0, _, _ => Option.none
  | fuel + 1, acc, s =>
    match s with
    | [] => Option.none
    | c :: r =>
      if c == dq then some (acc.reverse, r)
      else if c == '\\' then
        match r with
        | [] => Option.none
        | e :: r2 =>
          if e == dq then jsonStringAux fuel (dq :: acc) r2
          else if e == '\\' then jsonStringAux fuel ('\\' :: acc) r2
          else if e == '/' then jsonStringAux fuel ('/' :: acc) r2
          else if e == 'b' then jsonStringAux fuel ('\x08' :: acc) r2
          else if e == 'f' then jsonStringAux fuel ('\x0c' :: acc) r2
          else if e == 'n' then jsonStringAux fuel ('\n' :: acc) r2
          else if e == 'r' then jsonStringAux fuel ('\r' :: acc) r2
          else if e == 't' then jsonStringAux fuel ('\t' :: acc) r2
          else if e == 'u' then
            match r2 with
            | h1 :: h2 :: h3 :: h4 :: r3 =>
              match hexVal h1, hexVal h2, hexVal h3, hexVal h4 with
              | some a, some b, some c3, some d4 =>
                jsonStringAux fuel (Char.ofNat (((a * 16 + b) * 16 + c3) * 16 + d4) :: acc) r3
              | _, _, _, _ => Option.none
            | _ => Option.none
          else Option.none
      else if c.toNat < 32 then Option.none
      else jsonStringAux fuel (c :: acc) r

def digitsToNat (s : Str) : Nat := s.foldl (fun n c => n * 10 + (c.toNat - 48)) 0

/-- Exponent part of a JSON number plus final packaging. -/
def jsonNumTail (negChars lit : Str) (isFloat : Bool) (r : Str) : Option (PyValue × Str) :=
  match r with
  | e :: r5 =>
    if e == 'e' || e == 'E' then
      let sgnR : Str × Str :=
        match r5 with
        | '+' :: t => (['+'], t)
        | '-' :: t => (['-'], t)
        | _ => ([], r5)
      let ep := sgnR.2.takeWhile isDigitChar
      if ep.isEmpty then Option.none
      else some (.floatLit (negChars ++ lit ++ e :: (sgnR.1 ++ ep)), sgnR.2.drop ep.length)
    else if isFloat then some (.floatLit (negChars ++ lit), r)
    else some (.int (if negChars.isEmpty then (digitsToNat lit : Int) else -(digitsToNat lit : Int)), r)
  | [] =>
    if isFloat then some (.floatLit (negChars ++ lit), r)
    else some (.int (if negChars.isEmpty then (digitsToNat lit : Int) else -(digitsToNat lit : Int)), r)

/-- JSON number: -?(0|[1-9][0-9]*)(.[0-9]+)?([eE][+-]?[0-9]+)? -/
def jsonNumber (s : Str) : Option (PyValue × Str) :=
  let negR : Str × Str :=
    match s with
    | '-' :: r => (['-'], r)
    | _ => ([], s)
  let ip := negR.2.takeWhile isDigitChar
  if ip.isEmpty then Option.none
  else if ip.length > 1 && (ip.head? == some '0') then Option.none
  else
    let r2 := negR.2.drop ip.length
    match r2 with
    | '.' :: r3 =>
      let fp := r3.takeWhile isDigitChar
      if fp.isEmpty then Option.none
      else jsonNumTail negR.1 (ip ++ '.' :: fp) true (r3.drop fp.length)
    | _ => jsonNumTail negR.1 ip false r2

mutual

def jsonVal : Nat → Str → Option (PyValue × Str)
  | 0, _ => Option.none
  | fuel + 1, s =>
    match s with
    | '{' :: r =>
      match jsonWs r with
      | '}' :: r2 => some (.dict [], r2)
      | r1 => jsonMembers fuel r1 []
    | '[' :: r =>
      match jsonWs r with
      | ']' :: r2 => some (.list [], r2)
      | r1 => jsonItems fuel r1 []
    | c :: r =>
      if c == dq then
        match jsonStringAux (r.length + 1) [] r with
        | some (cs, rest) => some (.str cs, rest)
        | Option.none => Option.none
      else if c == 't' then
        if startsWith ("rue".data) r then some (.bool true, r.drop 3) else Option.none
      else if c == 'f' then
        if startsWith ("alse".data) r then some (.bool false, r.drop 4) else Option.none
      else if c == 'n' then
        if startsWith ("ull".data) r then some (.noneV, r.drop 3) else Option.none
      else if c == 'N' then
        if startsWith ("aN".data) r then some (.floatLit ("NaN".data), r.drop 2) else Option.none
      else if c == 'I' then
        if startsWith ("nfinity".data) r then some (.floatLit ("Infinity".data), r.drop 7)
        else Option.none
      else if c == '-' && r.head? == some 'I' then
        if startsWith ("nfinity".data) (r.drop 1) then
          some (.floatLit ("-Infinity".data), r.drop 8)
        else Option.none
      else jsonNumber s
    | [] => Option.none

def jsonMembers : Nat → Str → List (Str × PyValue) → Option (PyValue × Str)
  | 0, _, _ => Option.none
  | fuel + 1, s, acc =>
    match s with
    | c :: r =>
      if c == dq then
        match jsonStringAux (r.length + 1) [] r with
        | some (k, r2) =>
          match jsonWs r2 with
          | ':' :: r3 =>
            match jsonVal fuel (jsonWs r3) with
            | some (v, r4) =>
              match jsonWs r4 with
              | ',' :: r5 => jsonMembers fuel (jsonWs r5) (pySet acc k v)
              | '}' :: r5 => some (.dict (pySet acc k v), r5)
              | _ => Option.none
            | Option.none => Option.none
          | _ => Option.none
        | Option.none => Option.none
      else Option.none
    | [] => Option.none

def jsonItems : Nat → Str → List PyValue → Option (PyValue × Str)
  | 0, _, _ => Option.none
  | fuel + 1, s, acc =>
    match jsonVal fuel s with
    | some (v, r) =>
      match jsonWs r with
      | ',' :: r2 => jsonItems fuel (jsonWs r2) (v :: acc)
      | ']' :: r2 => some (.list (v :: acc).reverse, r2)
      | _ => Option.none
    | Option.none => Option.none

end

/-- Python json.loads: decode one JSON document, requiring the whole
input to be consumed (up to trailing whitespace). -/
def jsonLoads (s : Str) : Option PyValue :=
  match jsonVal (s.length + 1) (jsonWs s) with
  | some (v, rest) => if (jsonWs rest).isEmpty then some v else Option.none
  | Option.none => Option.none

/-! Model of the regex step.  parse_action applies
re.match(r'(\w+)\s*\((.*)\)', action_text).  Because \w, \s and the
literal '(' match disjoint character sets, the Python backtracking
engine is deterministic here: group 1 is the maximal leading run of word
characters, then a maximal run of whitespace must be followed by '(',
and the greedy (.*) (which does not cross a newline, DOTALL is off)
extends to the last ')' of the same line; re.match ignores any trailing
characters after that. -/

def matchCall (s : Str) : Option (Str × Str) :=
  let w := s.takeWhile isWordChar
  if w.isEmpty then Option.none
  else
    match (s.drop w.length).dropWhile isSpaceChar with
    | '(' :: r2 =>
      let line := r2.takeWhile (fun c => !(c == '\n'))
      match line.reverse.dropWhile (fun c => !(c == ')')) with
      | ')' :: rbody => some (w, rbody.reverse)
      | _ => Option.none
    | _ => Option.none

/-- Textual spelling df=df of the dataset alias (llm_interface.py line 168). -/
def patBare : Str := "df=df".data

/-- Spelling with the alias in single quotes. -/
def patSingle : Str := ['d', 'f', '='] ++ [sq, 'd', 'f', sq]

/-- Spelling with the alias in double quotes. -/
def patDouble : Str := ['d', 'f', '='] ++ [dq, 'd', 'f', dq]

/-- The substring test of llm_interface.py lines 165 and 232: does the
text contain any of the three alias spellings. -/
def dfRefHit (t : Str) : Bool :=
  containsSub t patBare || containsSub t patSingle || containsSub t patDouble

/-- Lines 168-174: remove every occurrence of the first alias spelling
found in the argument text, then clean up separators. -/
def applyDfRemoval (pt : Str) : Str :=
  match [patBare, patSingle, patDouble].find? (fun p => containsSub pt p) with
  | some p =>
    let t1 := pyReplace pt p []
    let t2 := pyReplace t1 ("(,".data) ("(".data)
    let t3 := pyReplace t2 (",,".data) (",".data)
    pyReplace t3 (",)".data) (")".data)
  | Option.none => pt

/-- Fallback type coercion of one argument value, llm_interface.py
lines 200-221.  Every branch that cannot fire leaves the value as a raw
string; nothing here can fail. -/
def coerceValue (value : Str) : PyValue :=
  if toLowerStr value = "true".data then .bool true
  else if toLowerStr value = "false".data then .bool false
  else if pyIsDigit value then .int (digitsToNat value)
  else if pyIsDigit (replaceFirstChar '.' [] value) && (countChar '.' value == 1) then
    .floatLit value
  else if startsWith ("[".data) value && endsWith ("]".data) value then
    .list (((dropFirstLast value).splitOn ',').map
      (fun item => .str (pyStripSet [dq, sq] (pyStrip item))))
  else if startsWith ("\x7b".data) value && endsWith ("\x7d".data) value then
    match jsonLoads (pyReplace value [sq] [dq]) with
    | some v => v
    | Option.none => .str value
  else if startsWith [sq] value && endsWith [sq] value then .str (dropFirstLast value)
  else if startsWith [dq] value && endsWith [dq] value then .str (dropFirstLast value)
  else .str value

/-- One fallback key=value pair, llm_interface.py lines 189-223:
pairs without '=' are skipped; the df alias spellings still produce the
reference; everything else goes through coerceValue. -/
def fallbackPair (acc : List (Str × PyValue)) (pair : Str) : List (Str × PyValue) :=
  if containsSub pair ['='] then
    let kv := splitFirst '=' pair
    let key := pyStrip kv.1
    let value := pyStrip kv.2
    if key = "df".data ∧
        (value = "df".data ∨ value = [sq, 'd', 'f', sq] ∨ value = [dq, 'd', 'f', dq]) then
      pySet acc ("df".data) (.str ("df".data))
    else pySet acc key (coerceValue value)
  else acc

/-- Fallback parsing path, lines 187-223: split the argument text on
every comma, then handle each pair. -/
def fallbackPairs (pt : Str) (ps : List (Str × PyValue)) : List (Str × PyValue) :=
  (pt.splitOn ',').foldl fallbackPair ps

/-- Generic argument parsing, lines 176-223: wrap the text in braces as
a pseudo JSON object and decode it; on any decode failure fall back to
comma splitting.  (When json.loads yields a non-dict the source would
raise on .items() and land in the same bare except, hence the same
fallback; with a brace-wrapped document that case cannot occur.) -/
def genericParams (pt : Str) (ps : List (Str × PyValue)) : List (Str × PyValue) :=
  if pt = [] then ps
  else if pyIsSpaceStr pt then ps
  else if pt = [','] then ps
  else
    let jsonParams := '{' :: (pyReplace (pyReplace pt ['='] [':']) [sq] [dq]) ++ ['}']
    match jsonLoads jsonParams with
    | some (.dict kvs) => kvs.foldl (fun acc kv => pySet acc kv.1 kv.2) ps
    | _ => fallbackPairs pt ps

/-- Result of parse_action: the source returns the pair
(None, reason-string) on failure and (name, params-dict) on success. -/
inductive ParseResult where
  | failure (reason : Str)
  | ok (name : Str) (params : List (Str × PyValue))

/-- parse_action, llm_interface.py lines 129-235.  The try/except around
the body is modelled by the Option results of the fallible pieces; no
other statement of the body can raise. -/
def parseAction (action0 : Str) : ParseResult :=
  if action0.isEmpty then .failure ("No action specified".data)
  else
    let action := pyReplace action0 patBare patSingle
    match matchCall action with
    | Option.none => .failure ("Could not parse action: ".data ++ action)
    | some g =>
      let functionName := pyStrip g.1
      let pt0 := pyStrip g.2
      let params0 : List (Str × PyValue) :=
        if pt0.isEmpty then []
        else
          if dfRefHit pt0 then
            genericParams (applyDfRemoval pt0) (pySet [] ("df".data) (.str ("df".data)))
          else genericParams pt0 []
      let params1 :=
        if dfRefHit action then pySet params0 ("df".data) (.str ("df".data)) else params0
      .ok functionName params1

/-- Convenience wrapper taking a Lean string literal. -/
def parseActionS (s : String) : ParseResult := parseAction s.data

/-! Model of the execution loop, main_controller.py lines 66-178.
The pandas DataFrame type is an opaque parameter D of the embedding;
the loop only stores, substitutes and type-tests such handles.  Tools
are external collaborators: a registry entry is a function from the
resolved arguments to an outcome, where the exc constructor models the
call raising an exception (caught at lines 160-164).  The completion
service is a function from the prompt text and the current log to the
pair (action text, thought), mirroring llm.process_task.  The logger is
modelled structurally: each session_log entry keeps the data handed to
the corresponding ReActLogger method; observation entries keep the
exact observation string, which is what the claims quote. -/

/-- Argument value at dispatch time: either a parsed value or the
substituted DataFrame handle (line 135). -/
inductive RVal (D : Type) where
  | v (x : PyValue)
  | data (d : D)

/-- Result component of a tool call, as the loop sees it: the line 154
isinstance check only distinguishes DataFrame results. -/
inductive ToolRes (D : Type) where
  | frame (d : D)
  | other

/-- Outcome of invoking a registered tool: a (result, message) pair, or
an exception escaping the call. -/
inductive ToolOut (D : Type) where
  | ok (res : ToolRes D) (msg : Str)
  | exc (msg : Str)

abbrev Tool (D : Type) := List (Str × RVal D) → ToolOut D

abbrev Registry (D : Type) := List (Str × Tool D)

def regLookup {D : Type} : Registry D → Str → Option (Tool D)
  | [], _ => Option.none
  | (k, f) :: r, n => if k = n then some f else regLookup r n

/-- Structured view of one session_log entry (logging_module.py):
log_task, log_thought, log_action and log_observation. -/
inductive LogEntry where
  | task (s : Str)
  | thought (s : Str)
  | action (name : Str) (params : List (Str × PyValue))
  | observation (s : Str)

/-- Session state owned by the loop: current_data (line 36), the
logger session_log, and the final_result local of run. -/
structure LoopState (D : Type) where
  currentData : Option D
  log : List LogEntry
  finalResult : Option PyValue

/-- Instrumentation only: a record of one pass through the dispatch
stage (lines 146-169), kept so that theorems can speak about what was
looked up in the registry and with which resolved arguments.  It does
not influence the loop state. -/
structure DispatchEv (D : Type) where
  name : Str
  args : List (Str × RVal D)
  found : Bool

/-- Result of one loop iteration: the new state, the ghost dispatch
record (none when the dispatch stage was never reached), and whether
the iteration executed the break of line 118. -/
structure IterResult (D : Type) where
  state : LoopState D
  ev : Option (DispatchEv D)
  stop : Bool

/-- Completion service model: from (task + stored-data note) and the
current log to (action text, thought). -/
abbrev LLM := Str → List LogEntry → Str × Str

/-- Note appended to the task when a DataFrame is loaded (line 95). -/
def storedDataInfo : Str :=
  "\nImportant: A DataFrame is already loaded in memory. You can use ".data
    ++ [sq] ++ "df".data ++ [sq]
    ++ " directly in your function calls to refer to it.".data

def promptTask {D : Type} (task : Str) (st : LoopState D) : Str :=
  task ++ (if st.currentData.isSome then storedDataInfo else [])

/-- Lines 102-105: the thought is logged when nonempty. -/
def logThought {D : Type} (st : LoopState D) (th : Str) : LoopState D :=
  if th.isEmpty then st else { st with log := st.log ++ [.thought th] }

/-- Condition of line 121 restricted to the params dict:
'df' in params and params['df'] == 'df'. -/
def hasDfRef (params : List (Str × PyValue)) : Bool :=
  match pyGet params ("df".data) with
  | some (.str v) => v == "df".data
  | _ => false

/-- Arguments passed through unchanged to the tool call. -/
def toRArgs {D : Type} (params : List (Str × PyValue)) : List (Str × RVal D) :=
  params.map (fun kv => (kv.1, .v kv.2))

/-- Lines 120-144: when the df reference is present and current_data is
set, the log copy shows a placeholder and the execution dict gets the
stored DataFrame; otherwise both are the parsed params unchanged.  (The
loops at lines 127-131 and 139-142 reassign dict values to themselves
and are behaviourally no-ops.)  Returns (log params, exec params). -/
def resolveArgs {D : Type} (cur : Option D) (params : List (Str × PyValue)) :
    List (Str × PyValue) × List (Str × RVal D) :=
  match cur with
  | some d =>
    if hasDfRef params then
      (pySet params ("df".data) (.str ("[DataFrame]".data)),
       pySet (toRArgs params) ("df".data) (.data d))
    else (params, toRArgs params)
  | Option.none => (params, toRArgs params)

/-- Lines 146-169: look the name up in the registry; invoke on success,
catching any exception; update current_data first when the result is a
DataFrame (lines 152-156), then log the observation. -/
def dispatchStage {D : Type} (tools : Registry D) (st : LoopState D)
    (name : Str) (execArgs : List (Str × RVal D)) : LoopState D × DispatchEv D :=
  match regLookup tools name with
  | some f =>
    match f execArgs with
    | .ok res msg =>
      match res with
      | .frame d =>
        ({ st with currentData := some d, log := st.log ++ [.observation msg] },
         ⟨name, execArgs, true⟩)
      | .other =>
        ({ st with log := st.log ++ [.observation msg] }, ⟨name, execArgs, true⟩)
    | .exc m =>
      ({ st with log := st.log ++
          [.observation ("Error executing ".data ++ name ++ ": ".data ++ m)] },
       ⟨name, execArgs, true⟩)
  | Option.none =>
    ({ st with log := st.log ++ [.observation ("Unknown action: ".data ++ name)] },
     ⟨name, execArgs, false⟩)

/-- Default final result of line 116. -/
def finishDefault : PyValue := .str ("Task completed successfully.".data)

def finishName : Str := "finish".data

def completeName : Str := "complete".data

/-- Observation recorded by the outer exception handler of lines
170-173.  pyMsg stands for str(e): after a parse failure params is the
reason string and the dict operations of lines 121 and 139 raise; the
exact interpreter message is version dependent and no claim depends on
it, so the run is parameterized by it. -/
def iterErrMsg (n : Nat) (msg : Str) : Str :=
  "Error during iteration ".data ++ natToDec n ++ ": ".data ++ msg

/-- Lines 114-169 given a successfully parsed invocation. -/
def iterInvoke {D : Type} (tools : Registry D) (st : LoopState D)
    (name : Str) (params : List (Str × PyValue)) : IterResult D :=
  if name = finishName ∨ name = completeName then
    ⟨{ st with
        log := st.log ++
          [.action finishName [("result".data, pyGetD params ("result".data) finishDefault)]],
        finalResult := some (pyGetD params ("result".data) finishDefault) },
     Option.none, true⟩
  else
    ⟨(dispatchStage tools
        { st with log := st.log ++ [.action name (resolveArgs st.currentData params).1] }
        name (resolveArgs st.currentData params).2).1,
     some (dispatchStage tools
        { st with log := st.log ++ [.action name (resolveArgs st.currentData params).1] }
        name (resolveArgs st.currentData params).2).2,
     false⟩

/-- Lines 107-173 after the completion call: empty action text is
observed and skipped; a parse failure reaches the outer handler (the
failure tuple is a string where a dict is expected); otherwise the
invocation is handled. -/
def iterAct {D : Type} (tools : Registry D) (pyMsg : Str → Str) (n : Nat)
    (st : LoopState D) (actionText : Str) : IterResult D :=
  if actionText.isEmpty then
    ⟨{ st with log := st.log ++ [.observation ("No action received from LLM".data)] },
     Option.none, false⟩
  else
    match parseAction actionText with
    | .failure reason =>
      ⟨{ st with log := st.log ++ [.observation (iterErrMsg n (pyMsg reason))] },
       Option.none, false⟩
    | .ok name params => iterInvoke tools st name params

/-- One full iteration of the while body (lines 87-173), for iteration
number n (already incremented at line 87). -/
def iterate {D : Type} (llm : LLM) (tools : Registry D) (pyMsg : Str → Str)
    (task : Str) (n : Nat) (st : LoopState D) : IterResult D :=
  iterAct tools pyMsg n
    (logThought st (llm (promptTask task st) st.log).2)
    (llm (promptTask task st) st.log).1

/-- State at the start of run: no DataFrame, the task logged by
start_session, no final result (lines 77-84). -/
def initState {D : Type} (task : Str) : LoopState D :=
  ⟨Option.none, [.task task], Option.none⟩

/-- The while loop of lines 86-173: fuel is the number of remaining
iterations allowed by max_iterations; the returned list is the ghost
per-iteration dispatch trace. -/
def runAux {D : Type} (llm : LLM) (tools : Registry D) (pyMsg : Str → Str)
    (task : Str) : Nat → Nat → LoopState D → LoopState D × List (Option (DispatchEv D))
  | 0, _, st => (st, [])
  | fuel + 1, iters, st =>
    if (iterate llm tools pyMsg task (iters + 1) st).stop then
      ((iterate llm tools pyMsg task (iters + 1) st).state,
       [(iterate llm tools pyMsg task (iters + 1) st).ev])
    else
      ((runAux llm tools pyMsg task fuel (iters + 1)
          (iterate llm tools pyMsg task (iters + 1) st).state).1,
       (iterate llm tools pyMsg task (iters + 1) st).ev ::
         (runAux llm tools pyMsg task fuel (iters + 1)
           (iterate llm tools pyMsg task (iters + 1) st).state).2)

/-- run(task, max_iterations), lines 66-178: returns the
(final_result, session_log) pair of line 178 together with the ghost
dispatch trace. -/
def run {D : Type} (llm : LLM) (tools : Registry D) (pyMsg : Str → Str)
    (task : Str) (maxIter : Nat) :
    (Option PyValue × List LogEntry) × List (Option (DispatchEv D)) :=
  let r := runAux llm tools pyMsg task maxIter 0 (initState task)
  ((r.1.finalResult, r.1.log), r.2)

/-- Number of passes through the dispatch stage in a ghost trace. -/
def dispatchCount {D : Type} (tr : List (Option (DispatchEv D))) : Nat :=
  (tr.filterMap id).length

/-! Helper lemmas shared by the claim theorems. -/

theorem parseAction_nil : parseAction [] = ParseResult.failure ("No action specified".data) :=
  rfl

theorem parseAction_ok_ne_nil {a name : Str} {params : List (Str × PyValue)}
    (hp : parseAction a = ParseResult.ok name params) : a.isEmpty = false := by
  cases a with
  | nil =>
    rw [parseAction_nil] at hp
    exact ParseResult.noConfusion hp
  | cons c cs => rfl

theorem logThought_currentData {D : Type} (st : LoopState D) (th : Str) :
    (logThought st th).currentData = st.currentData := by
  unfold logThought
  split <;> rfl

theorem logThought_finalResult {D : Type} (st : LoopState D) (th : Str) :
    (logThought st th).finalResult = st.finalResult := by
  unfold logThought
  split <;> rfl

theorem dispatchStage_finalResult {D : Type} (tools : Registry D) (st : LoopState D)
    (name : Str) (args : List (Str × RVal D)) :
    ((dispatchStage tools st name args).1).finalResult = st.finalResult := by
  unfold dispatchStage
  split
  · split
    · split <;> rfl
    · rfl
  · rfl

/-- Reduction of one iteration once the completion response and its
successful parse are known. -/
theorem iterate_parsed {D : Type} (llm : LLM) (tools : Registry D) (pyMsg : Str → Str)
    (task : Str) (n : Nat) (st : LoopState D) (a th name : Str)
    (params : List (Str × PyValue))
    (hllm : llm (promptTask task st) st.log = (a, th))
    (hp : parseAction a = ParseResult.ok name params) :
    iterate llm tools pyMsg task n st = iterInvoke tools (logThought st th) name params := by
  have ha := parseAction_ok_ne_nil hp
  unfold iterate iterAct
  rw [hllm]
  simp only [ha, Bool.false_eq_true, if_false, hp]

/-! Claim theorems. -/

/-- C4: dataset-alias detection is quoting-invariant: the raw strings
f(df=df), f(df='df') and f(df="df") all parse to the invocation with
operation name f and the single argument df bound to the value that the
loop recognises as the current-dataset reference (hasDfRef, the test of
main_controller.py line 121).  Idempotence holds because parseAction is
a pure function of its input, so repeated parsing of any of these
strings yields this identical result. -/
theorem C4_alias_quoting_invariant :
    parseActionS "f(df=df)" = ParseResult.ok ("f".data) [("df".data, PyValue.str ("df".data))]
    ∧ parseAction ("f(df=".data ++ [sq] ++ "df".data ++ [sq] ++ ")".data)
        = ParseResult.ok ("f".data) [("df".data, PyValue.str ("df".data))]
    ∧ parseAction ("f(df=".data ++ [dq] ++ "df".data ++ [dq] ++ ")".data)
        = ParseResult.ok ("f".data) [("df".data, PyValue.str ("df".data))]
    ∧ hasDfRef [("df".data, PyValue.str ("df".data))] = true :=
  ⟨rfl, rfl, rfl, rfl⟩

/-- C6: the claim is right and the code is wrong.  On the input
f(x={'a':1,'b':2}) the structured decode fails (the pseudo JSON object
has the unquoted key x), and the fallback splits the argument text on
every comma, including the one inside the brace literal: the result is
a single argument x bound to the raw string "{'a':1" (the second piece
'b':2} contains no '=' and is silently dropped), not a two-entry map.
This defeats the fallback's own brace-value decode branch
(llm_interface.py lines 212-217), which can never fire for a
multi-entry map. -/
theorem C6_nested_commas_split_bug :
    parseAction ("f(x=\x7b".data ++ [sq] ++ "a".data ++ [sq] ++ ":1,".data
        ++ [sq] ++ "b".data ++ [sq] ++ ":2\x7d)".data)
      = ParseResult.ok ("f".data)
          [("x".data, PyValue.str ("\x7b".data ++ [sq] ++ "a".data ++ [sq] ++ ":1".data))] :=
  rfl

/-- C7: parseAction is a total function: every input yields either a
ParseFailure or a parsed invocation (all fallible sub-steps, the json
decodes, are Option-valued and handled locally, so no failure escapes).
The malformed input f(a=1 with a missing closing parenthesis yields the
ParseFailure of llm_interface.py line 153, and in the fallback path an
argument value that no typing rule accepts is kept as a raw string, as
f(x=hello) shows. -/
theorem C7_parse_total :
    (∀ s : Str, (∃ r, parseAction s = ParseResult.failure r)
        ∨ ∃ n p, parseAction s = ParseResult.ok n p)
    ∧ parseActionS "f(a=1" = ParseResult.failure ("Could not parse action: f(a=1".data)
    ∧ parseActionS "f(x=hello)"
        = ParseResult.ok ("f".data) [("x".data, PyValue.str ("hello".data))] := by
  refine ⟨fun s => ?_, rfl, rfl⟩
  cases h : parseAction s with
  | failure r => exact Or.inl ⟨r, rfl⟩
  | ok n p => exact Or.inr ⟨n, p, rfl⟩

/-- C8 counterexample: the raw string "Calling f(a=1)" contains the call
substring f(a=1) preceded by prose, yet parseAction returns a
ParseFailure, because the source anchors its pattern with re.match at
the start of the string instead of searching for the call. -/
theorem C8_counterexample :
    parseActionS "Calling f(a=1)"
      = ParseResult.failure ("Could not parse action: Calling f(a=1)".data) :=
  rfl

/-- C8 amended: the parser does not skip leading prose.  The call must
begin at the very start of the raw string (an identifier immediately
followed, after optional whitespace, by an opening parenthesis); any
input beginning with a non-word character such as a space yields a
ParseFailure, while trailing prose after the last closing parenthesis
of the call line is ignored. -/
theorem C8_amended_anchored_at_start :
    (∀ s : Str, ∃ r, parseAction (' ' :: s) = ParseResult.failure r)
    ∧ parseActionS "f(a=1) trailing words"
        = ParseResult.ok ("f".data) [("a".data, PyValue.int 1)] := by
  refine ⟨fun s => ⟨"Could not parse action: ".data ++ pyReplace (' ' :: s) patBare patSingle, ?_⟩, rfl⟩
  rfl

/-- C9 counterexample: the input f(mydf=df) has no argument whose entire
text is an alias spelling (its only argument has key mydf), yet the
parse output is the current-dataset reference argument df='df' (and the
key mydf is lost entirely), because the alias detection of
llm_interface.py lines 146, 165 and 232 is a plain substring test. -/
theorem C9_counterexample :
    parseActionS "f(mydf=df)" = ParseResult.ok ("f".data) [("df".data, PyValue.str ("df".data))]
    ∧ hasDfRef [("df".data, PyValue.str ("df".data))] = true :=
  ⟨rfl, rfl⟩

/-- C9 amended: the current-dataset reference is produced whenever the
argument text contains one of the three alias spellings as a substring,
even inside another argument such as mydf=df (whose own key is then
lost); an argument whose value is an arbitrary quoted string that does
not contain an alias spelling, such as x='df', still never yields the
reference. -/
theorem C9_amended_substring_detection :
    parseActionS "g(mydf=df, x=1)"
      = ParseResult.ok ("g".data)
          [("df".data, PyValue.str ("df".data)), ("x".data, PyValue.int 1)]
    ∧ parseAction ("f(x=".data ++ [sq] ++ "df".data ++ [sq] ++ ")".data)
        = ParseResult.ok ("f".data) [("x".data, PyValue.str ("df".data))]
    ∧ hasDfRef [("x".data, PyValue.str ("df".data))] = false :=
  ⟨rfl, rfl, rfl⟩

/-- C1: in any iteration whose parsed operation name is finish or
complete, the loop sets the final result to the result argument of the
invocation (defaulting to the fixed placeholder of finishDefault when
absent), appends the Turn recording this action, and stops (main loop
break, line 118); the ghost dispatch record is none, i.e. the name is
never looked up in or dispatched through the tool registry. -/
theorem C1_finish_terminal {D : Type} (llm : LLM) (tools : Registry D) (pyMsg : Str → Str)
    (task : Str) (n : Nat) (st : LoopState D) (a th name : Str)
    (params : List (Str × PyValue))
    (hllm : llm (promptTask task st) st.log = (a, th))
    (hp : parseAction a = ParseResult.ok name params)
    (hn : name = finishName ∨ name = completeName) :
    iterate llm tools pyMsg task n st =
      ⟨{ logThought st th with
          log := (logThought st th).log ++
            [.action finishName [("result".data, pyGetD params ("result".data) finishDefault)]],
          finalResult := some (pyGetD params ("result".data) finishDefault) },
        Option.none, true⟩ := by
  rw [iterate_parsed llm tools pyMsg task n st a th name params hllm hp]
  unfold iterInvoke
  rw [if_pos hn]

/-- C1 witness at a concrete input: the completion service answers
finish(result='Done') on the first iteration and the loop terminates at
once with that result. -/
def c1LLM : LLM := fun _ _ =>
  ("finish(result=".data ++ [sq] ++ "Done".data ++ [sq] ++ ")".data, [])

theorem C1_finish_terminal_witness :
    iterate (D := Unit) c1LLM [] (fun _ => []) ("t".data) 1
        ⟨Option.none, [], Option.none⟩ =
      ⟨⟨Option.none,
        [.action finishName [("result".data, PyValue.str ("Done".data))]],
        some (PyValue.str ("Done".data))⟩,
       Option.none, true⟩ :=
  C1_finish_terminal c1LLM [] (fun _ => []) ("t".data) 1
    ⟨Option.none, [], Option.none⟩
    ("finish(result=".data ++ [sq] ++ "Done".data ++ [sq] ++ ")".data) []
    finishName [("result".data, PyValue.str ("Done".data))]
    rfl rfl (Or.inl rfl)

/-- Reduction of one iteration for a parsed, non-terminating
invocation: the action is logged and the dispatch stage runs on the
resolved arguments. -/
theorem iterate_nonfinish {D : Type} (llm : LLM) (tools : Registry D) (pyMsg : Str → Str)
    (task : Str) (n : Nat) (st : LoopState D) (a th name : Str)
    (params : List (Str × PyValue))
    (hllm : llm (promptTask task st) st.log = (a, th))
    (hp : parseAction a = ParseResult.ok name params)
    (hn : ¬(name = finishName ∨ name = completeName)) :
    iterate llm tools pyMsg task n st =
      ⟨(dispatchStage tools
          { logThought st th with
            log := (logThought st th).log ++
              [.action name (resolveArgs st.currentData params).1] }
          name (resolveArgs st.currentData params).2).1,
       some (dispatchStage tools
          { logThought st th with
            log := (logThought st th).log ++
              [.action name (resolveArgs st.currentData params).1] }
          name (resolveArgs st.currentData params).2).2,
       false⟩ := by
  rw [iterate_parsed llm tools pyMsg task n st a th name params hllm hp]
  unfold iterInvoke
  rw [if_neg hn]
  simp only [logThought_currentData]

/-- Completion service stub used by concrete instantiations: it always
answers foo(x=1) with an empty thought. -/
def c3LLM : LLM := fun _ _ => ("foo(x=1)".data, [])

/-- Registry stub whose only tool raises on every call. -/
def c3Tools : Registry Unit :=
  [("foo".data, fun _ => ToolOut.exc ("boom".data))]

/-- C3 counterexample: dispatching the unregistered name foo records the
observation "Unknown action: foo" (capitalized, main_controller.py line
167), which differs from the string "unknown action: foo" that the
claim quotes; likewise the error observation of line 162 is spelled
"Error executing ...".  Only the spelling deviates; the recovery
behaviour the claim describes is proved in the amended theorem. -/
theorem C3_counterexample :
    (iterate (D := Unit) c3LLM [] (fun _ => []) ("t".data) 1
        ⟨Option.none, [], Option.none⟩).state.log
      = [.action ("foo".data) [("x".data, PyValue.int 1)],
         .observation ("Unknown action: foo".data)]
    ∧ ("Unknown action: foo".data : Str) ≠ "unknown action: foo".data :=
  ⟨rfl, by decide⟩

/-- C3 amended: in every iteration, dispatching an unregistered name
records the observation "Unknown action: <name>" and the loop proceeds
(stop is false, the final result is untouched), and an exception raised
by a registered operation is caught and recorded as the observation
"Error executing <name>: <details>" without aborting the loop or the
session; no failure inside the iteration is fatal. -/
theorem C3_amended_failure_isolation {D : Type} (llm : LLM) (tools : Registry D)
    (pyMsg : Str → Str) (task : Str) (n : Nat) (st : LoopState D) (a th name : Str)
    (params : List (Str × PyValue))
    (hllm : llm (promptTask task st) st.log = (a, th))
    (hp : parseAction a = ParseResult.ok name params)
    (hn : ¬(name = finishName ∨ name = completeName)) :
    (regLookup tools name = Option.none →
      iterate llm tools pyMsg task n st =
        ⟨{ logThought st th with
            log := (logThought st th).log ++
              [.action name (resolveArgs st.currentData params).1,
               .observation ("Unknown action: ".data ++ name)] },
         some ⟨name, (resolveArgs st.currentData params).2, false⟩, false⟩)
    ∧ (∀ f m, regLookup tools name = some f →
        f (resolveArgs st.currentData params).2 = ToolOut.exc m →
        iterate llm tools pyMsg task n st =
          ⟨{ logThought st th with
              log := (logThought st th).log ++
                [.action name (resolveArgs st.currentData params).1,
                 .observation ("Error executing ".data ++ name ++ ": ".data ++ m)] },
           some ⟨name, (resolveArgs st.currentData params).2, true⟩, false⟩) := by
  constructor
  · intro hreg
    rw [iterate_nonfinish llm tools pyMsg task n st a th name params hllm hp hn]
    unfold dispatchStage
    simp only [hreg]
    simp [List.append_assoc]
  · intro f m hreg hf
    rw [iterate_nonfinish llm tools pyMsg task n st a th name params hllm hp hn]
    unfold dispatchStage
    simp only [hreg, hf]
    simp [List.append_assoc]

/-- C3 witness: both parts of the amended theorem instantiated, with an
empty registry (unknown name) and with a registry whose tool raises. -/
theorem C3_amended_failure_isolation_witness :
    (iterate (D := Unit) c3LLM [] (fun _ => []) ("t".data) 1
        ⟨Option.none, [], Option.none⟩ =
      ⟨⟨Option.none,
        [.action ("foo".data) [("x".data, PyValue.int 1)],
         .observation ("Unknown action: foo".data)],
        Option.none⟩,
       some ⟨"foo".data, [("x".data, RVal.v (PyValue.int 1))], false⟩, false⟩)
    ∧ (iterate (D := Unit) c3LLM c3Tools (fun _ => []) ("t".data) 1
        ⟨Option.none, [], Option.none⟩ =
      ⟨⟨Option.none,
        [.action ("foo".data) [("x".data, PyValue.int 1)],
         .observation ("Error executing foo: boom".data)],
        Option.none⟩,
       some ⟨"foo".data, [("x".data, RVal.v (PyValue.int 1))], true⟩, false⟩) :=
  ⟨(C3_amended_failure_isolation c3LLM [] (fun _ => []) ("t".data) 1
      ⟨Option.none, [], Option.none⟩ ("foo(x=1)".data) [] ("foo".data)
      [("x".data, PyValue.int 1)] rfl rfl (by decide)).1 rfl,
   (C3_amended_failure_isolation c3LLM c3Tools (fun _ => []) ("t".data) 1
      ⟨Option.none, [], Option.none⟩ ("foo(x=1)".data) [] ("foo".data)
      [("x".data, PyValue.int 1)] rfl rfl (by decide)).2
     (fun _ => ToolOut.exc ("boom".data)) ("boom".data) rfl rfl⟩

/-- Reading a key from the passed-through argument list gives the
parsed value wrapped as a plain (non-DataFrame) dispatch value. -/
theorem pyGet_toRArgs {D : Type} (params : List (Str × PyValue)) (k : Str) :
    pyGet (toRArgs (D := D) params) k = (pyGet params k).map RVal.v := by
  induction params with
  | nil => rfl
  | cons kv r ih =>
    by_cases h : kv.1 = k
    · simp [toRArgs, pyGet, h]
    · simp only [toRArgs, pyGet, h, if_false, List.map_cons]
      simpa [toRArgs] using ih

/-- Completion service stub answering clean_data(df=df). -/
def c5LLM : LLM := fun _ _ => ("clean_data(df=df)".data, [])

/-- Registry stub with a clean_data tool that succeeds without
returning a DataFrame. -/
def c5Tools : Registry Unit :=
  [("clean_data".data, fun _ => ToolOut.ok ToolRes.other ("msg".data))]

/-- C5 counterexample: with no dataset loaded, the iteration that
dispatches clean_data(df=df) hands the operation the literal alias
string df for the df argument, not None: the substitution of
main_controller.py line 135 is guarded by current_data is not None
(line 121), so with current_data = None it is skipped entirely. -/
theorem C5_counterexample :
    (iterate (D := Unit) c5LLM c5Tools (fun _ => []) ("t".data) 1
        ⟨Option.none, [], Option.none⟩).ev
      = some ⟨"clean_data".data, [("df".data, RVal.v (PyValue.str ("df".data)))], true⟩
    ∧ RVal.v (PyValue.str ("df".data)) ≠ (RVal.v PyValue.noneV : RVal Unit) :=
  ⟨rfl, by simp⟩

/-- C5 amended: when current_data is None at resolution time, the loop
performs no substitution at all: every parsed argument is passed
through to the dispatch stage unchanged, so an operation called with
the df reference receives the literal string value df (and is itself
responsible for handling it); the loop does not treat this as a
loop-level failure. -/
theorem C5_amended_literal_passthrough {D : Type} (llm : LLM) (tools : Registry D)
    (pyMsg : Str → Str) (task : Str) (n : Nat) (st : LoopState D) (a th name : Str)
    (params : List (Str × PyValue))
    (hllm : llm (promptTask task st) st.log = (a, th))
    (hp : parseAction a = ParseResult.ok name params)
    (hn : ¬(name = finishName ∨ name = completeName))
    (hcur : st.currentData = Option.none) :
    (iterate llm tools pyMsg task n st).ev
      = some ⟨name, toRArgs params, (regLookup tools name).isSome⟩
    ∧ (∀ v, pyGet params ("df".data) = some v →
        pyGet (toRArgs (D := D) params) ("df".data) = some (RVal.v v)) := by
  constructor
  · rw [iterate_nonfinish llm tools pyMsg task n st a th name params hllm hp hn, hcur]
    simp only [resolveArgs]
    unfold dispatchStage
    rcases hreg : regLookup tools name with _ | f
    · simp only [hreg, Option.isSome_none]
    · simp only [hreg, Option.isSome_some]
      rcases hf : f (toRArgs params) with ⟨res, msg⟩ | m
      · simp only [hf]
        cases res <;> rfl
      · simp only [hf]
  · intro v hv
    rw [pyGet_toRArgs, hv]
    rfl

/-- C5 witness: the amended theorem instantiated at the concrete
clean_data(df=df) iteration with no dataset loaded. -/
theorem C5_amended_literal_passthrough_witness :
    (iterate (D := Unit) c5LLM c5Tools (fun _ => []) ("t".data) 1
        ⟨Option.none, [], Option.none⟩).ev
      = some ⟨"clean_data".data, toRArgs [("df".data, PyValue.str ("df".data))],
          (regLookup c5Tools ("clean_data".data)).isSome⟩
    ∧ pyGet (toRArgs (D := Unit) [("df".data, PyValue.str ("df".data))]) ("df".data)
        = some (RVal.v (PyValue.str ("df".data))) :=
  ⟨(C5_amended_literal_passthrough c5LLM c5Tools (fun _ => []) ("t".data) 1
      ⟨Option.none, [], Option.none⟩ ("clean_data(df=df)".data) [] ("clean_data".data)
      [("df".data, PyValue.str ("df".data))] rfl rfl (by decide) rfl).1,
   (C5_amended_literal_passthrough c5LLM c5Tools (fun _ => []) ("t".data) 1
      ⟨Option.none, [], Option.none⟩ ("clean_data(df=df)".data) [] ("clean_data".data)
      [("df".data, PyValue.str ("df".data))] rfl rfl (by decide) rfl).2
     (PyValue.str ("df".data)) rfl⟩

/-- The while loop of run executes at most fuel iterations: the ghost
trace has one entry per executed iteration. -/
theorem runAux_trace_le {D : Type} (llm : LLM) (tools : Registry D) (pyMsg : Str → Str)
    (task : Str) :
    ∀ (fuel iters : Nat) (st : LoopState D),
      ((runAux llm tools pyMsg task fuel iters st).2).length ≤ fuel := by
  intro fuel
  induction fuel with
  | zero => intro iters st; exact Nat.le_refl 0
  | succ f ih =>
    intro iters st
    unfold runAux
    split
    · exact Nat.succ_le_succ (Nat.zero_le f)
    · exact Nat.succ_le_succ (ih (iters + 1) _)

/-- C2: run(task, max_iterations) executes at most max_iterations
iterations and (being a total function of its inputs) always returns a
(final result, history) pair; moreover with max_iterations = 1 and a
first completion answer that parses to a non-terminating invocation,
the loop terminates after exactly one pass through the dispatch stage
with final result None — budget exhaustion is the normal fall-through
of the while condition (line 86), not an error. -/
theorem C2_budget_termination {D : Type} (llm : LLM) (tools : Registry D)
    (pyMsg : Str → Str) (task : Str) (m : Nat) :
    ((run llm tools pyMsg task m).2).length ≤ m
    ∧ (∀ a th name params,
        llm (promptTask task (initState (D := D) task)) (initState (D := D) task).log
          = (a, th) →
        parseAction a = ParseResult.ok name params →
        ¬(name = finishName ∨ name = completeName) →
        m = 1 →
        (run llm tools pyMsg task m).1.1 = Option.none
        ∧ dispatchCount (run llm tools pyMsg task m).2 = 1) := by
  constructor
  · exact runAux_trace_le llm tools pyMsg task m 0 (initState task)
  · intro a th name params hllm hp hn hm
    subst hm
    have hit := iterate_nonfinish llm tools pyMsg task (0 + 1) (initState task)
      a th name params hllm hp hn
    constructor
    · show (runAux llm tools pyMsg task 1 0 (initState task)).1.finalResult = Option.none
      unfold runAux
      rw [hit]
      show ((dispatchStage tools _ name _).1).finalResult = Option.none
      rw [dispatchStage_finalResult]
      show (logThought (initState (D := D) task) th).finalResult = Option.none
      rw [logThought_finalResult]
      rfl
    · show dispatchCount (runAux llm tools pyMsg task 1 0 (initState task)).2 = 1
      unfold runAux
      rw [hit]
      rfl

/-- C2 witness: one iteration with an empty registry and a completion
answer foo(x=1); the run stops with no result after one dispatch
attempt. -/
theorem C2_budget_termination_witness :
    ((run (D := Unit) c3LLM [] (fun _ => []) ("t".data) 1).2).length ≤ 1
    ∧ ((run (D := Unit) c3LLM [] (fun _ => []) ("t".data) 1).1.1 = Option.none
       ∧ dispatchCount ((run (D := Unit) c3LLM [] (fun _ => []) ("t".data) 1).2) = 1) :=
  ⟨(C2_budget_termination c3LLM [] (fun _ => []) ("t".data) 1).1,
   (C2_budget_termination c3LLM [] (fun _ => []) ("t".data) 1).2
     ("foo(x=1)".data) [] ("foo".data) [("x".data, PyValue.int 1)]
     rfl rfl (by decide) rfl⟩

/-- C10: in one iteration the current dataset handle either stays
exactly what it was, or the iteration reached the dispatch stage, the
registered operation was invoked and returned a DataFrame result, and
the handle is overwritten with precisely that DataFrame.  In
particular a parse failure, an unknown action, a raising operation or a
non-DataFrame result all leave current_data unchanged. -/
theorem C10_current_data_frame_only {D : Type} (llm : LLM) (tools : Registry D)
    (pyMsg : Str → Str) (task : Str) (n : Nat) (st : LoopState D) :
    (iterate llm tools pyMsg task n st).state.currentData = st.currentData
    ∨ ∃ name args f d msg,
        (iterate llm tools pyMsg task n st).ev = some ⟨name, args, true⟩
        ∧ regLookup tools name = some f
        ∧ f args = ToolOut.ok (ToolRes.frame d) msg
        ∧ (iterate llm tools pyMsg task n st).state.currentData = some d := by
  unfold iterate iterAct
  split
  · exact Or.inl (logThought_currentData st _)
  · split
    · exact Or.inl (logThought_currentData st _)
    · rename_i name params _
      unfold iterInvoke
      split
      · exact Or.inl (logThought_currentData st _)
      · unfold dispatchStage
        split
        · rename_i f heq
          split
          · rename_i res msg heq2
            cases res with
            | frame d => exact Or.inr ⟨name, _, f, d, msg, rfl, heq, heq2, rfl⟩
            | other => exact Or.inl (logThought_currentData st _)
          · exact Or.inl (logThought_currentData st _)
        · exact Or.inl (logThought_currentData st _)

end DSA
